import Mathlib

/-!
Verification of the xiaohongshu auto-post orchestrator against its
natural-language specification.  The definitions below are shallow
embeddings of the Python sources under `src/`:

* `classify`            — the outcome-classification block of
                          `XiaohongshuAgent.post_to_xiaohongshu`
                          (src/agent/xiaohongshu/xiaohongshu_agent.py, lines 726-801);
* `retryLoop`           — the per-item retry `while` loop of
                          `run_posting_task` (lines 987-1018);
* `runPostingTask`      — the orchestrator run loop of `run_posting_task`
                          (lines 830-1151), with the external collaborators
                          (login, browser agent, external stop requests)
                          supplied as oracles;
* `deletePostDirectoryAsync` / `schedulePostDelete`
                        — `_delete_post_directory_async` (lines 267-313) and
                          `_schedule_delete_post_directory` (lines 315-333);
* cookie-store functions — `XiaohongshuCookieManager.save_cookies`,
                          `load_saved_cookies`, `_validate_cookie`,
                          `_parse_netscape_cookies`
                          (src/agent/xiaohongshu/cookie_manager.py).

Python strings are modelled as Lean `String`; where the code calls
`str.lower()` the model applies ASCII lowercasing (all keyword tables in
the source are ASCII or Chinese, which `lower()` leaves unchanged).
-/

namespace XhsAutoPost

/-! ### Python string helpers -/

/-- Python `pat in hay` on character lists: `pat` occurs contiguously in `hay`. -/
def listContains (hay pat : List Char) : Bool :=
  match hay with
  | [] => pat.isEmpty
  | _ :: rest => pat.isPrefixOf hay || listContains rest pat

/-- Python substring test `pat in s`. -/
def containsSub (s pat : String) : Bool :=
  listContains s.toList pat.toList

/-- Python `str.lower()` restricted to ASCII case mapping. -/
def asciiLower (s : String) : String :=
  String.mk (s.toList.map Char.toLower)

/-! ### OutcomeClassifier
The verdict of one publish attempt as produced by the classification block
at the end of `post_to_xiaohongshu`.  `Success` covers both branches that
mark `actual_success = True`, `RetryableFailure` is the branch returning
`retry_needed: True`, and `HardFailure` the remaining failure branches. -/

inductive Verdict where
  | Success
  | RetryableFailure
  | HardFailure
  deriving DecidableEq, Repr

/-- Table `success_indicators` from `post_to_xiaohongshu` (lines 727-730). -/
def success_indicators : List String :=
  ["发布成功", "已发布", "publish success", "successfully published",
   "发表成功", "posting completed", "发送成功", "published=true"]

/-- Table `failure_indicators` from `post_to_xiaohongshu` (lines 732-735). -/
def failure_indicators : List String :=
  ["failed", "error", "错误", "失败", "未完成", "incomplete",
   "failed to complete", "maximum steps", "无法", "不能"]

/-- Table `retry_indicators` from `post_to_xiaohongshu` (lines 738-742). -/
def retry_indicators : List String :=
  ["你访问的页面不见了", "页面不见了", "page not found", "404",
   "网络错误", "network error", "连接失败", "connection failed",
   "页面加载失败", "page load failed", "空白页面", "blank page"]

/-- Python `any(indicator in s for indicator in inds)`. -/
def anyIndicator (inds : List String) (s : String) : Bool :=
  inds.any (fun ind => containsSub s ind)

/-- The outcome-classification decision of `post_to_xiaohongshu`
(lines 744-801).  `final_result_str` is the lowercased final result text
(line 724) and `full_result_str` the lowercased full execution history
(line 748); both arguments here are those already-lowercased strings. -/
def classify (final_result_str full_result_str : String) : Verdict :=
  let is_success := anyIndicator success_indicators final_result_str
  let url_success := containsSub full_result_str "published=true"
  let has_failure := anyIndicator failure_indicators final_result_str
  let needs_retry := anyIndicator retry_indicators final_result_str
  if needs_retry && !(is_success || url_success) then .RetryableFailure
  else if has_failure && !(is_success || url_success) then .HardFailure
  else if is_success || url_success then .Success
  else if containsSub final_result_str "maximum steps"
          || final_result_str.length < 10 then .HardFailure
  else .Success

example : classify "发布成功" "xxpublished=falsexx" = .Success := by decide
example : classify "error occurred" "xxpublished=true" = .Success := by decide
example : classify "你访问的页面不见了" "xx" = .RetryableFailure := by decide
example : classify "" "xx" = .HardFailure := by decide

/-! ### Per-attempt result record
`post_to_xiaohongshu` returns a dict whose keys relevant to the run loop
are `success` and `retry_needed` (absent keys read as `False` via
`result.get("retry_needed", False)`). -/

structure PostResult where
  success : Bool
  retry_needed : Bool
  deriving DecidableEq, Repr

/-- The result dict produced by each classification branch of
`post_to_xiaohongshu`: the retry branch returns `success: False` with
`retry_needed: True` (lines 761-777), the success branches `success: True`
(lines 781-788, 795-801), the failure branches `success: False`
(lines 778-780, 789-794). -/
def verdictResult : Verdict → PostResult
  | .Success => ⟨true, false⟩
  | .RetryableFailure => ⟨false, true⟩
  | .HardFailure => ⟨false, false⟩

/-! ### Per-item retry loop (`run_posting_task`, lines 987-1018)
`attempt k` is the result of the publish attempt made with
`retry_count = k`.  The third component collects the pre-retry sleeps
(`await asyncio.sleep(5)` at line 1007, performed whenever
`retry_count > 0` before the attempt).  The fuel argument starts at
`maxRetries` and the loop is entered with `retry_count = 0`; when the fuel
is exhausted `retry_count = maxRetries`, where the source loop breaks after
the attempt regardless (the `retry_count < max_retries` conjunct fails),
which is exactly what the base case returns. -/

def retryIter (attempt : Nat → PostResult) (maxRetries : Nat) :
    Nat → Nat → List Nat → PostResult × Nat × List Nat
  | 0, rc, delays =>
      let delays := if 0 < rc then delays ++ [5] else delays
      (attempt rc, rc, delays)
  | fuel + 1, rc, delays =>
      let delays := if 0 < rc then delays ++ [5] else delays
      let r := attempt rc
      if r.retry_needed && decide (rc < maxRetries) then
        retryIter attempt maxRetries fuel (rc + 1) delays
      else
        (r, rc, delays)

/-- The whole retry loop: `max_retries = 2`, `retry_count = 0` initially. -/
def retryLoop (attempt : Nat → PostResult) (maxRetries : Nat) :
    PostResult × Nat × List Nat :=
  retryIter attempt maxRetries maxRetries 0 []

/-- Outcome of processing one queue item (verdict oracle per retry count). -/
def itemRun (attempt : Nat → Nat → Verdict) (idx : Nat) :
    PostResult × Nat × List Nat :=
  retryLoop (fun k => verdictResult (attempt idx k)) 2

example : (retryLoop (fun _ => ⟨false, true⟩) 2) = (⟨false, true⟩, 2, [5, 5]) := by decide
example : (retryLoop (fun _ => ⟨true, false⟩) 2) = (⟨true, false⟩, 0, []) := by decide

/-! ### Paths and the cleanup subsystem
Filesystem paths are modelled as their `pathlib` part lists: an absolute
POSIX path `/a/b` has parts `["/", "a", "b"]`; `pathlib` keeps `".."`
components in `parts`.  `Path.is_relative_to` is a purely lexical prefix
test on parts (it does not resolve `".."`), while `shutil.rmtree` acts on
the operating-system resolution of the path. -/

/-- Function `pathlib.PurePath.is_relative_to`: lexical parts-prefix test. -/
def pyIsRelativeTo (p base : List String) : Bool :=
  base.isPrefixOf p

/-- Operating-system resolution of an absolute path: processes `"."` and
`".."` components (`".."` at the root stays at the root). -/
def resolveAbs (p : List String) : List String :=
  p.foldl
    (fun acc c =>
      if c = ".." then (if acc.length ≤ 1 then acc else acc.dropLast)
      else if c = "." then acc
      else acc ++ [c])
    []

/-- A queue item as built by `_scan_post_directory` (lines 197-252):
`source_dir` is the path of the source directory of the item. -/
structure PostItem where
  title : String
  text_content : String
  images : List String
  source_dir : List String
  deriving DecidableEq, Repr

/-- Result of one invocation of `_delete_post_directory_async`:
`deleted` is the (OS-resolved) directory removed from the filesystem, if
any; `queue` the updated `available_posts`; `returned` the boolean result. -/
structure DeleteOutcome where
  deleted : Option (List String)
  queue : List PostItem
  returned : Bool
  deriving DecidableEq, Repr

/-- Method `_delete_post_directory_async` (lines 267-313): refuse when
`source_dir` is missing/empty, when the directory does not exist, or when
the lexical `is_relative_to` check against `posts_dir` fails; otherwise
`shutil.rmtree` the directory (the OS resolves `".."` components) and drop
every queue entry with that `source_dir`. -/
def deletePostDirectoryAsync (posts_dir : List String)
    (fsExists : List String → Bool) (queue : List PostItem)
    (post : PostItem) : DeleteOutcome :=
  let source_dir := post.source_dir
  if source_dir.isEmpty then ⟨none, queue, false⟩
  else if !fsExists (resolveAbs source_dir) then ⟨none, queue, false⟩
  else if !pyIsRelativeTo source_dir posts_dir then ⟨none, queue, false⟩
  else
    ⟨some (resolveAbs source_dir),
     queue.filter (fun p => p.source_dir ≠ source_dir),
     true⟩

/-- Method `_schedule_delete_post_directory` (lines 315-333):
`asyncio.create_task` spawns the deletion as an unawaited background task.
It mutates nothing at scheduling time; the item is merely appended to the
set of pending background deletions. -/
def schedulePostDelete (queue : List PostItem) (pending : List PostItem)
    (post : PostItem) : List PostItem × List PostItem :=
  (queue, pending ++ [post])

/-! ### Orchestrator state and run loop (`run_posting_task`, lines 830-1151)
The mutable flags of `XiaohongshuAgent` plus the browser session handle and
the scanned queue.  External collaborators become oracles:
`loginOk` the result of `login_xiaohongshu`, `attempt idx k` the verdict of
the publish attempt for item `idx` at retry count `k`, `stopAt idx` whether
an external `request_stop()` arrives before the loop iteration for item
`idx`, and `callbackFails` whether the caller-supplied status callback
raises at the first `update_status` await (line 866), which escapes to the
`except Exception` handler.  A run that never terminates (paused forever
with no stop request) is `none`. -/

structure AgentState where
  is_running : Bool
  is_paused : Bool
  stop_requested : Bool
  browser_open : Bool
  available_posts : List PostItem
  deriving DecidableEq, Repr

/-- One entry of the returned result list. -/
inductive RunResult where
  | noContent
  | loginFailed
  | item (idx : Nat) (success : Bool) (retry_count : Nat)
  | fatal
  deriving DecidableEq, Repr

/-- The item loop (lines 927-1113).  Carries the item index, the stop flag,
the consecutive-failure counter, the accumulated results, and the pending
background deletions scheduled so far.  Returns `none` when the pause-wait
loop (lines 939-947) can never exit. -/
def runLoop (attempt : Nat → Nat → Verdict) (stopAt : Nat → Bool)
    (paused : Bool) :
    List PostItem → Nat → Bool → Nat → List RunResult → List PostItem →
    Option (Bool × List RunResult × List PostItem)
  | [], _, stop, _, results, pending => some (stop, results, pending)
  | post :: rest, idx, stop, cf, results, pending =>
      let stop := stop || stopAt idx
      if stop then some (stop, results, pending)
      else if paused then none
      else if 3 ≤ cf then some (stop, results, pending)
      else
        let r := itemRun attempt idx
        let pending := if r.1.success then pending ++ [post] else pending
        let results := results ++ [.item idx r.1.success r.2.1]
        let cf := if r.1.success then 0 else cf + 1
        runLoop attempt stopAt paused rest (idx + 1) stop cf results pending

/-- Aggregate output of one `run_posting_task` invocation. -/
structure RunOutput where
  state : AgentState
  results : List RunResult
  pendingDeletes : List PostItem
  deriving DecidableEq, Repr

/-- The `finally` block (lines 1146-1149): `is_running = False` and
`close_browser()` (which nulls `browser` and `browser_context`). -/
def finalizeState (st : AgentState) : AgentState :=
  { st with is_running := false, browser_open := false }

/-- The stale-state check at entry (lines 844-853): a leftover
`is_running`/`stop_requested` flag forces a full reset of all flags and the
browser before the run starts. -/
def staleReset (st : AgentState) : AgentState :=
  if st.is_running || st.stop_requested then
    { st with is_running := false, is_paused := false,
              stop_requested := false, browser_open := false }
  else st

/-- The `try` body of `run_posting_task` (lines 864-1132): fatal-exception
path, initial stop check, queue acquisition, login gate, then the item
loop.  Returns the state at exit of the body together with the results and
the scheduled deletions. -/
def runBody (st : AgentState) (maxPosts : Nat) (rescan : List PostItem)
    (loginOk : Bool) (attempt : Nat → Nat → Verdict) (stopAt : Nat → Bool)
    (callbackFails : Bool) :
    Option (AgentState × List RunResult × List PostItem) :=
  if callbackFails then some (st, [.fatal], [])
  else if st.stop_requested then some (st, [], [])
  else
    let posts := if st.available_posts.isEmpty then rescan
                 else st.available_posts
    if posts.isEmpty then some (st, [.noContent], [])
    else
      let st := { st with browser_open := true }
      if !loginOk then some (st, [.loginFailed], [])
      else
        (runLoop attempt stopAt st.is_paused (posts.take maxPosts) 0
            st.stop_requested 0 [] []).map
          (fun out => ({ st with stop_requested := out.1 }, out.2.1, out.2.2))

/-- Method `run_posting_task` (lines 830-1151): stale-state reset, set
`is_running`, run the body, then always apply the `finally` finalization to
whatever state the body exited with. -/
def runPostingTask (st0 : AgentState) (maxPosts : Nat)
    (rescan : List PostItem) (loginOk : Bool)
    (attempt : Nat → Nat → Verdict) (stopAt : Nat → Bool)
    (callbackFails : Bool) : Option RunOutput :=
  let st := staleReset st0
  let st := { st with is_running := true }
  (runBody st maxPosts rescan loginOk attempt stopAt callbackFails).map
    (fun out => ⟨finalizeState out.1, out.2.1, out.2.2⟩)

/-! ### CookieStore: persistence (`save_cookies` / `load_saved_cookies`)
The store file holds the JSON value written by `json.dump`; cookies live in
memory as dicts, modelled by `CookieRecord` with the fields the load path
guarantees plus the optional ones.  `JVal` is the JSON value tree. -/

inductive JVal where
  | jnull
  | jbool (b : Bool)
  | jnum (n : Int)
  | jstr (s : String)
  | jarr (xs : List JVal)
  | jobj (fields : List (String × JVal))

/-- An accepted cookie record after `load_cookies_from_file` applied its
defaults: `name`, `value`, `domain`, `path`, `secure` are always present;
`httpOnly` and `expires` only when the source format provided them. -/
structure CookieRecord where
  name : String
  value : String
  domain : String
  path : String
  secure : Bool
  httpOnly : Option Bool
  expires : Option Int
  deriving DecidableEq, Repr

/-- JSON serialization of one cookie dict (`json.dump` of the dict). -/
def cookieToJson (c : CookieRecord) : JVal :=
  .jobj ([("name", .jstr c.name), ("value", .jstr c.value),
          ("domain", .jstr c.domain), ("path", .jstr c.path),
          ("secure", .jbool c.secure)]
    ++ (match c.httpOnly with
        | some b => [("httpOnly", JVal.jbool b)]
        | none => [])
    ++ (match c.expires with
        | some e => [("expires", JVal.jnum e)]
        | none => []))

/-- Python `dict.get key default` on a JSON object; other values have no
keys. -/
def jGet (j : JVal) (key : String) : Option JVal :=
  match j with
  | .jobj fields => fields.lookup key
  | _ => none

/-- Field access `cookie[k]` returning the string value, if any. -/
def jGetStr (j : JVal) (key : String) : Option String :=
  match jGet j key with
  | some (.jstr s) => some s
  | _ => none

/-- Method `save_cookies` (lines 129-154): the file content written is the
envelope `{"cookies": ..., "saved_at": ..., "domain": "xiaohongshu.com"}`. -/
def saveCookieFile (cookies : List CookieRecord) (saved_at : String) : JVal :=
  .jobj [("cookies", .jarr (cookies.map cookieToJson)),
         ("saved_at", .jstr saved_at),
         ("domain", .jstr "xiaohongshu.com")]

/-- Method `load_saved_cookies` (lines 156-174): no store file yields `[]`;
otherwise `data.get("cookies", [])`. -/
def loadSavedCookies (file : Option JVal) : List JVal :=
  match file with
  | none => []
  | some data =>
      match jGet data "cookies" with
      | some (.jarr xs) => xs
      | _ => []

/-- The (name, value, domain) projection the round-trip property compares
records by. -/
def cookieKeyOf (j : JVal) : Option String × Option String × Option String :=
  (jGetStr j "name", jGetStr j "value", jGetStr j "domain")

/-! ### CookieStore: validation (`_validate_cookie`, lines 106-127)
A cookie as parsed from an input file, before validation: any of the
fields may be absent (`Option`). -/

structure RawCookie where
  name : Option String
  value : Option String
  domain : Option String
  path : Option String
  secure : Option Bool
  deriving DecidableEq, Repr

/-- Table `xiaohongshu_cookie_names` (lines 119-122). -/
def xiaohongshu_cookie_names : List String :=
  ["sessionid", "userid", "web_session", "xsec_token",
   "a1", "webid", "gid", "customerid", "customerbeaconid"]

/-- Method `_validate_cookie` (lines 106-127): require the `name` and `value`
keys to be present; then accept when the domain (defaulting to `""`)
contains `"xiaohongshu"` or `"xhscdn"`, or otherwise when the lowercased
name contains one of the known auth-cookie names. -/
def validateCookie (c : RawCookie) : Bool :=
  if c.name.isNone then false
  else if c.value.isNone then false
  else
    let domain := c.domain.getD ""
    if !containsSub domain "xiaohongshu" && !containsSub domain "xhscdn" then
      let name := asciiLower (c.name.getD "")
      xiaohongshu_cookie_names.any (fun n => containsSub name n)
    else true

/-- The default-filling step of `load_cookies_from_file` (lines 65-71)
applied to each accepted cookie. -/
def applyCookieDefaults (c : RawCookie) : RawCookie :=
  { c with domain := some (c.domain.getD ".xiaohongshu.com"),
           path := some (c.path.getD "/"),
           secure := some (c.secure.getD true) }

/-- The validation/cleanup loop of `load_cookies_from_file`
(lines 61-72): records failing `_validate_cookie` are silently dropped,
accepted ones get the defaults and are kept in order. -/
def acceptCookies (cs : List RawCookie) : List RawCookie :=
  cs.filterMap (fun c =>
    if validateCookie c then some (applyCookieDefaults c) else none)

/-! ### CookieStore: Netscape parsing (`_parse_netscape_cookies`, lines 81-104)
Python `str.strip()` (modelled over the ASCII whitespace characters),
`str.split(sep)` keeping empty fields, and `int(s)` (optional sign plus
decimal digits, surrounding whitespace allowed) are modelled below. -/

/-- Python `str.strip()` on a character list. -/
def pyStripList (l : List Char) : List Char :=
  ((l.dropWhile Char.isWhitespace).reverse.dropWhile Char.isWhitespace).reverse

/-- Python `s.split(sep)` for a one-character separator: splits at every
occurrence, keeping empty fields; `"".split(sep) = [""]`. -/
def splitSep (sep : Char) (l : List Char) : List (List Char) :=
  l.foldr
    (fun c acc =>
      match acc with
      | [] => [[c]]
      | cur :: rest => if c = sep then [] :: cur :: rest else (c :: cur) :: rest)
    [[]]

/-- Decimal digit run to a number; `none` on the empty run or a non-digit. -/
def parseDigitsAux : List Char → Nat → Option Nat
  | [], acc => some acc
  | c :: rest, acc =>
      if c.isDigit then parseDigitsAux rest (acc * 10 + (c.toNat - 48))
      else none

/-- Python `int(s)` on a character list: strips whitespace, one optional
sign, then a non-empty digit run (digit-group underscores are not used by
any cookie files and are not modelled). -/
def pyIntList (l : List Char) : Option Int :=
  match pyStripList l with
  | [] => none
  | '-' :: rest =>
      if rest.isEmpty then none
      else (parseDigitsAux rest 0).map (fun n => -(n : Int))
  | '+' :: rest =>
      if rest.isEmpty then none
      else (parseDigitsAux rest 0).map (fun n => (n : Int))
  | l' => (parseDigitsAux l' 0).map (fun n => (n : Int))

/-- The expiry computation `int(parts[4]) if parts[4] != "0" else None`
(line 98); a `ValueError` from `int` is an exception (`.error`). -/
def expiresOf (s : List Char) : Except Unit (Option Int) :=
  if s = ['0'] then .ok none
  else
    match pyIntList s with
    | some n => .ok (some n)
    | none => .error ()

/-- One parsed Netscape cookie dict (line 93-101). -/
structure NetscapeCookie where
  domain : String
  httpOnly : Bool
  path : String
  secure : Bool
  expires : Option Int
  name : String
  value : String
  deriving DecidableEq, Repr

/-- The per-line step of `_parse_netscape_cookies` (lines 86-102): strip,
skip blank and `#` lines, split on tabs, and build a cookie only when at
least 7 fields are present, reading exactly fields 0-6. -/
def parseNetscapeLine (line : List Char) : Except Unit (Option NetscapeCookie) :=
  let line := pyStripList line
  if line.isEmpty then .ok none
  else if line.headD ' ' = '#' then .ok none
  else
    let parts := splitSep '\t' line
    if 7 ≤ parts.length then
      match expiresOf (parts.getD 4 []) with
      | .error e => .error e
      | .ok exp =>
          .ok (some
            { domain := String.mk (parts.getD 0 [])
              httpOnly := asciiLower (String.mk (parts.getD 1 [])) = "true"
              path := String.mk (parts.getD 2 [])
              secure := asciiLower (String.mk (parts.getD 3 [])) = "true"
              expires := exp
              name := String.mk (parts.getD 5 [])
              value := String.mk (parts.getD 6 []) })
    else .ok none

/-- Method `_parse_netscape_cookies` over the `"\n"`-split lines; the first
uncaught `int` exception aborts the whole parse (it propagates to the
blanket handler of the caller). -/
def parseNetscapeList : List (List Char) → Except Unit (List NetscapeCookie)
  | [] => .ok []
  | line :: rest =>
      match parseNetscapeLine line with
      | .error e => .error e
      | .ok none => parseNetscapeList rest
      | .ok (some c) =>
          match parseNetscapeList rest with
          | .error e => .error e
          | .ok cs => .ok (c :: cs)

/-- Method `_parse_netscape_cookies` applied to a whole file. -/
def parseNetscapeCookies (content : String) : Except Unit (List NetscapeCookie) :=
  parseNetscapeList ((splitSep '\n' content.toList))

example :
    parseNetscapeCookies
      ".xiaohongshu.com\tTRUE\t/\tTRUE\t0\tsessionid\tabc\textra"
      = .ok [{ domain := ".xiaohongshu.com", httpOnly := true, path := "/",
               secure := true, expires := none, name := "sessionid",
               value := "abc" }] := by rfl

example :
    parseNetscapeCookies "a\tb\tc" = .ok [] := by rfl

/-! ## Theorems for the claims -/

/-- Helper: a vanishing `any` over an indicator table forces every member
indicator to be absent. -/
theorem anyIndicator_false_mem {inds : List String} {s ind : String}
    (h : anyIndicator inds s = false) (hmem : ind ∈ inds) :
    containsSub s ind = false := by
  rw [anyIndicator, List.any_eq_false] at h
  have := h ind hmem
  simpa using this

/-- C2: the precedence of the classifier.  A retryable marker with no success
marker in the result text and no structural `published=true` marker in the
full text yields `RetryableFailure` (no hypothesis is placed on failure
markers, so a simultaneous hard-failure marker cannot override it); a
success marker or the structural marker always yields `Success`, even when
failure markers also match.  The three quoted applications follow. -/
theorem C2_classifier_precedence :
    (∀ s t : String,
        anyIndicator retry_indicators s = true →
        anyIndicator success_indicators s = false →
        containsSub t "published=true" = false →
        classify s t = .RetryableFailure) ∧
    (∀ s t : String,
        anyIndicator success_indicators s = true ∨
          containsSub t "published=true" = true →
        classify s t = .Success) ∧
    classify "发布成功" "xxpublished=falsexx" = .Success ∧
    classify "error occurred" "xxpublished=true" = .Success ∧
    classify "你访问的页面不见了" "xxx" = .RetryableFailure := by
  refine ⟨?_, ?_, by decide, by decide, by decide⟩
  · intro s t hr hs hu
    simp [classify, hr, hs, hu]
  · intro s t h
    rcases h with h | h
    · simp [classify, h]
    · simp [classify, h]

/-- Witness for C2 at concrete inputs. -/
theorem C2_classifier_precedence_witness :
    classify "你访问的页面不见了" "yy" = .RetryableFailure ∧
    classify "已发布" "yy" = .Success := by
  exact ⟨C2_classifier_precedence.1 _ _ (by decide) (by decide) (by decide),
         C2_classifier_precedence.2.1 _ _ (Or.inl (by decide))⟩

/-- C3: when no success, structural, retryable or hard-failure marker
matches, the fallback applies: a result text shorter than 10 characters or
containing the `"maximum steps"` marker is a `HardFailure`, anything else a
`Success`. -/
theorem C3_fallback_rule (s t : String)
    (h1 : anyIndicator success_indicators s = false)
    (h2 : containsSub t "published=true" = false)
    (h3 : anyIndicator retry_indicators s = false)
    (h4 : anyIndicator failure_indicators s = false) :
    classify s t =
      (if s.length < 10 || containsSub s "maximum steps"
       then .HardFailure else .Success) := by
  have hms : containsSub s "maximum steps" = false :=
    anyIndicator_false_mem h4 (by simp [failure_indicators])
  simp [classify, h1, h2, h3, h4, hms]

/-- Witness for C3: the empty result text is a `HardFailure`. -/
theorem C3_fallback_rule_witness : classify "" "zzz" = .HardFailure := by
  rw [C3_fallback_rule "" "zzz" (by decide) (by decide) (by decide) (by decide)]
  decide

/-- The outcome of the per-item retry loop with the fixed
`max_retries = 2` of the source, as a function of the verdict of each attempt. -/
def retryOutcome (attempt : Nat → Verdict) : PostResult × Nat × List Nat :=
  retryLoop (fun k => verdictResult (attempt k)) 2

/-- Case expansion of the retry loop for `max_retries = 2`. -/
theorem retryOutcome_expand (attempt : Nat → Verdict) :
    retryOutcome attempt =
      if attempt 0 = .RetryableFailure then
        (if attempt 1 = .RetryableFailure then
          (verdictResult (attempt 2), 2, [5, 5])
         else (verdictResult (attempt 1), 1, [5]))
      else (verdictResult (attempt 0), 0, []) := by
  cases h0 : attempt 0 <;> cases h1 : attempt 1 <;> cases h2 : attempt 2 <;>
    simp [retryOutcome, retryLoop, retryIter, verdictResult, h0, h1, h2]

/-- C4: the per-item retry loop makes at most 3 attempts (final
`retry_count ≤ 2`); the returned result is that of the final attempt; every
attempt before the final one had a `RetryableFailure` verdict (only that
verdict triggers a retry); if the loop stopped below the cap the final
verdict was not retryable (`Success`/`HardFailure` end it immediately);
every retry is preceded by the fixed 5-second delay; and when every attempt
up to the cap is retryable, the item is recorded as a non-success with the
cap exhausted. -/
theorem C4_retry_cap (attempt : Nat → Verdict) :
    (retryOutcome attempt).2.1 ≤ 2 ∧
    (retryOutcome attempt).1 = verdictResult (attempt (retryOutcome attempt).2.1) ∧
    (∀ k, k < (retryOutcome attempt).2.1 → attempt k = .RetryableFailure) ∧
    ((retryOutcome attempt).2.1 < 2 →
        attempt (retryOutcome attempt).2.1 ≠ .RetryableFailure) ∧
    (retryOutcome attempt).2.2 = List.replicate (retryOutcome attempt).2.1 5 ∧
    ((∀ k, k ≤ 2 → attempt k = .RetryableFailure) →
        (retryOutcome attempt).1.success = false ∧
        (retryOutcome attempt).2.1 = 2) := by
  by_cases h0 : attempt 0 = .RetryableFailure
  · by_cases h1 : attempt 1 = .RetryableFailure
    · have hout : retryOutcome attempt = (verdictResult (attempt 2), 2, [5, 5]) := by
        rw [retryOutcome_expand]; simp [h0, h1]
      rw [hout]
      dsimp only
      refine ⟨by omega, rfl, ?_, ?_, rfl, ?_⟩
      · intro k hk
        interval_cases k <;> assumption
      · intro h
        exact absurd h (by omega)
      · intro h
        rw [h 2 (by omega)]
        exact ⟨rfl, rfl⟩
    · have hout : retryOutcome attempt = (verdictResult (attempt 1), 1, [5]) := by
        rw [retryOutcome_expand]; simp [h0, h1]
      rw [hout]
      dsimp only
      refine ⟨by omega, rfl, ?_, ?_, rfl, ?_⟩
      · intro k hk
        have hk0 : k = 0 := by omega
        rw [hk0]
        exact h0
      · intro _
        exact h1
      · intro h
        exact absurd (h 1 (by omega)) h1
  · have hout : retryOutcome attempt = (verdictResult (attempt 0), 0, []) := by
      rw [retryOutcome_expand]; simp [h0]
    rw [hout]
    dsimp only
    refine ⟨by omega, rfl, ?_, ?_, rfl, ?_⟩
    · intro k hk
      exact absurd hk (by omega)
    · intro _
      exact h0
    · intro h
      exact absurd (h 0 (by omega)) h0

/-- Witness for C4: an always-retryable item exhausts the cap at 3 attempts
and is recorded as a failure, with both retries preceded by the delay. -/
theorem C4_retry_cap_witness :
    (retryOutcome (fun _ => .RetryableFailure)).1.success = false ∧
    (retryOutcome (fun _ => .RetryableFailure)).2.1 = 2 ∧
    (retryOutcome (fun _ => .RetryableFailure)).2.2 = [5, 5] := by
  have h := C4_retry_cap (fun _ => .RetryableFailure)
  have hcap := h.2.2.2.2.2 (fun k _ => rfl)
  exact ⟨hcap.1, hcap.2, by decide⟩

/-- The adversarial queue item of C1: its `source_dir` contains `".."`
components and OS-resolves outside the content root `/app/posts`. -/
def traversalItem : PostItem :=
  { title := "evil", text_content := "",
    images := ["/app/posts/evil/a.png"],
    source_dir := ["/", "app", "posts", "..", "..", "etc"] }

/-- C1 (code bug): `Path.is_relative_to` is a lexical parts-prefix test, so
`/app/posts/../../etc` passes the safety check against the content root
`/app/posts` although it resolves to `/etc`; `_delete_post_directory_async`
then removes the resolved directory `/etc` — which is not a descendant of
the resolved content root — and returns `True`, instead of the claimed
refusal (no deletion, return `False`). -/
theorem C1_path_traversal_bug :
    (deletePostDirectoryAsync ["/", "app", "posts"] (fun _ => true)
        [traversalItem] traversalItem).returned = true ∧
    (deletePostDirectoryAsync ["/", "app", "posts"] (fun _ => true)
        [traversalItem] traversalItem).deleted = some ["/", "etc"] ∧
    (resolveAbs ["/", "app", "posts"]).isPrefixOf
        (resolveAbs traversalItem.source_dir) = false := by
  refine ⟨rfl, rfl, rfl⟩

/-- A concrete queue item used by the C9 theorems. -/
def queuedItem : PostItem :=
  { title := "post1", text_content := "hello",
    images := ["/r/p1/a.png"], source_dir := ["/", "r", "p1"] }

/-- C9 counterexample: `_schedule_delete_post_directory` only spawns an
unawaited background task; at the moment the deletion is scheduled the
in-memory queue is unchanged and the just-published item is still in it,
refuting synchronous removal. -/
theorem C9_not_synchronous :
    (schedulePostDelete [queuedItem] [] queuedItem).1 = [queuedItem] ∧
    queuedItem ∈ (schedulePostDelete [queuedItem] [] queuedItem).1 := by
  exact ⟨rfl, by simp [schedulePostDelete]⟩

/-- C9 amended: scheduling leaves the queue untouched and merely appends
the item to the pending background deletions; the item is removed from the
queue only when the background task later runs and its checks pass, and the
removal then filters by `source_dir` identity (hence it is idempotent). -/
theorem C9_async_removal (queue pending : List PostItem) (post : PostItem)
    (root : List String) (fsExists : List String → Bool)
    (h1 : post.source_dir.isEmpty = false)
    (h2 : fsExists (resolveAbs post.source_dir) = true)
    (h3 : pyIsRelativeTo post.source_dir root = true) :
    (schedulePostDelete queue pending post).1 = queue ∧
    (schedulePostDelete queue pending post).2 = pending ++ [post] ∧
    (deletePostDirectoryAsync root fsExists queue post).queue
      = queue.filter (fun p => p.source_dir ≠ post.source_dir) := by
  refine ⟨rfl, rfl, ?_⟩
  simp [deletePostDirectoryAsync, h1, h2, h3]

/-- Witness for the amended statement of C9: the background deletion, once run,
does drop the item from the queue. -/
theorem C9_async_removal_witness :
    (deletePostDirectoryAsync ["/", "r"] (fun _ => true)
        [queuedItem] queuedItem).queue = [] := by
  have h := C9_async_removal [queuedItem] [] queuedItem ["/", "r"]
      (fun _ => true) rfl rfl rfl
  rw [h.2.2]
  decide

/-- A generic queue item for run-loop theorems. -/
def sampleItem : PostItem :=
  { title := "p", text_content := "t",
    images := ["/root/p/a.png"], source_dir := ["/", "root", "p"] }

/-- A five-item queue whose publish attempts all fail. -/
def fiveItems : List PostItem :=
  [sampleItem, sampleItem, sampleItem, sampleItem, sampleItem]

/-- Initial agent state holding the five-item queue, all flags clear. -/
def st5 : AgentState :=
  { is_running := false, is_paused := false, stop_requested := false,
    browser_open := false, available_posts := fiveItems }

/-- C5: the consecutive-failure circuit breaker.  (i) A run over 5 items
that all hard-fail attempts exactly items 1-3 and aborts before items 4-5.
(ii) In general, three consecutively failing items starting from a clear
failure counter make the outcome of the loop independent of every later queue
item — the rest of the queue is never attempted.  (iii) A successful item
resets the consecutive-failure counter to zero. -/
theorem C5_circuit_breaker :
    ((runPostingTask st5 5 [] true (fun _ _ => .HardFailure) (fun _ => false)
        false).map RunOutput.results
      = some [.item 0 false 0, .item 1 false 0, .item 2 false 0]) ∧
    (∀ (attempt : Nat → Nat → Verdict) (a b c : PostItem)
        (rest : List PostItem) (idx : Nat) (res : List RunResult)
        (pend : List PostItem),
        (itemRun attempt idx).1.success = false →
        (itemRun attempt (idx + 1)).1.success = false →
        (itemRun attempt (idx + 2)).1.success = false →
        runLoop attempt (fun _ => false) false (a :: b :: c :: rest) idx
            false 0 res pend
          = runLoop attempt (fun _ => false) false [a, b, c] idx
              false 0 res pend) ∧
    (∀ (attempt : Nat → Nat → Verdict) (stopAt : Nat → Bool) (i : PostItem)
        (rest : List PostItem) (idx cf : Nat) (res : List RunResult)
        (pend : List PostItem),
        cf < 3 → stopAt idx = false →
        (itemRun attempt idx).1.success = true →
        runLoop attempt stopAt false (i :: rest) idx false cf res pend
          = runLoop attempt stopAt false rest (idx + 1) false 0
              (res ++ [.item idx true (itemRun attempt idx).2.1])
              (pend ++ [i])) := by
  refine ⟨by rfl, ?_, ?_⟩
  · intro attempt a b c rest idx res pend hf0 hf1 hf2
    simp only [runLoop, Bool.false_or, hf0, hf1, hf2, if_false]
    norm_num
    cases rest with
    | nil => rfl
    | cons d ds => simp [runLoop]
  · intro attempt stopAt i rest idx cf res pend hcf hstop hsucc
    have hncf : ¬ 3 ≤ cf := by omega
    simp only [runLoop, hstop, Bool.false_or, hsucc, if_false, if_true, hncf]
    simp

/-- Witness for C5: a successful item at failure count 2 resets the counter
and the loop continues. -/
theorem C5_circuit_breaker_witness :
    runLoop (fun _ _ => .Success) (fun _ => false) false [sampleItem] 0
        false 2 [] []
      = some (false, [.item 0 true 0], [sampleItem]) := by
  rw [C5_circuit_breaker.2.2 (fun _ _ => .Success) (fun _ => false)
      sampleItem [] 0 2 [] [] (by omega) rfl (by decide)]
  rfl

/-- C6 (amended): on every termination of `run_posting_task` — normal,
stopped, or with an escaping exception — the finalization has released the
browser session resources and reset `is_running` to false, and the
accumulated result sequence is returned.  (The other two flags are *not*
reset here; see the counterexample theorem.) -/
theorem C6_finalization (st0 : AgentState) (maxPosts : Nat)
    (rescan : List PostItem) (loginOk : Bool)
    (attempt : Nat → Nat → Verdict) (stopAt : Nat → Bool)
    (callbackFails : Bool) (out : RunOutput)
    (h : runPostingTask st0 maxPosts rescan loginOk attempt stopAt
        callbackFails = some out) :
    out.state.is_running = false ∧ out.state.browser_open = false := by
  simp only [runPostingTask] at h
  generalize hb : runBody _ maxPosts rescan loginOk attempt stopAt
      callbackFails = b at h
  cases b with
  | none => simp at h
  | some p =>
      simp at h
      rw [← h]
      exact ⟨rfl, rfl⟩

/-- Single-item initial state for the C6 counterexample. -/
def st1 : AgentState :=
  { is_running := false, is_paused := false, stop_requested := false,
    browser_open := false, available_posts := [sampleItem] }

/-- Initial state with the pause flag set, for the C6 counterexample. -/
def stPaused : AgentState :=
  { is_running := false, is_paused := true, stop_requested := false,
    browser_open := false, available_posts := [sampleItem] }

/-- C6 counterexample: the finalization does not reset `stop_requested` or
`is_paused` to the Idle baseline.  A run terminated by a stop request ends
with `stop_requested` still true, and a paused agent stopped externally
ends with `is_paused` still true. -/
theorem C6_flags_not_reset :
    ((runPostingTask st1 5 [] true (fun _ _ => .Success) (fun i => i == 0)
        false).map (fun o => o.state.stop_requested) = some true) ∧
    ((runPostingTask stPaused 5 [] true (fun _ _ => .Success)
        (fun i => i == 0) false).map (fun o => o.state.is_paused)
      = some true) := by
  exact ⟨rfl, rfl⟩

/-- The concrete output of the stop-terminated run used as C6 witness. -/
def c6Out : RunOutput :=
  ⟨{ is_running := false, is_paused := false, stop_requested := true,
     browser_open := false, available_posts := [sampleItem] }, [], []⟩

/-- Witness for C6: the finalization guarantee at a concrete terminating
run. -/
theorem C6_finalization_witness :
    c6Out.state.is_running = false ∧ c6Out.state.browser_open = false :=
  C6_finalization st1 5 [] true (fun _ _ => .Success) (fun i => i == 0)
    false c6Out rfl

/-- The (name, value, domain) projection of a serialized cookie recovers
the fields of the record. -/
theorem cookieKeyOf_toJson (c : CookieRecord) :
    cookieKeyOf (cookieToJson c) = (some c.name, some c.value, some c.domain) := rfl

/-- C7: persisting a sequence of accepted cookie records with
`save_cookies` and reading the store back with `load_saved_cookies` yields
a sequence equal to the original, record for record, under the
(name, value, domain) comparison. -/
theorem C7_roundtrip (cs : List CookieRecord) (t : String) :
    (loadSavedCookies (some (saveCookieFile cs t))).map cookieKeyOf
      = cs.map (fun c => (some c.name, some c.value, some c.domain)) := by
  have hload : loadSavedCookies (some (saveCookieFile cs t))
      = cs.map cookieToJson := rfl
  rw [hload, List.map_map]
  induction cs with
  | nil => rfl
  | cons c cs ih => simp [cookieKeyOf_toJson, ih]

/-- A validated cookie with empty name and value but a platform domain. -/
def emptyNameCookie : RawCookie :=
  { name := some "", value := some "", domain := some ".xiaohongshu.com",
    path := none, secure := none }

/-- C8 counterexample: `_validate_cookie` only checks the *presence* of the
`name`/`value` keys, not non-emptiness, so a record with empty name and
value and a platform domain is accepted and kept in the returned sequence —
refuting the non-empty-strings condition of the claim. -/
theorem C8_empty_name_accepted :
    emptyNameCookie.name = some "" ∧ emptyNameCookie.value = some "" ∧
    validateCookie emptyNameCookie = true ∧
    acceptCookies [emptyNameCookie]
      = [{ name := some "", value := some "",
           domain := some ".xiaohongshu.com",
           path := some "/", secure := some true }] := by
  refine ⟨rfl, rfl, rfl, rfl⟩

/-- C8 (amended): a parsed record is accepted iff its `name` and `value`
keys are present (emptiness is not checked) and either its domain contains
`"xiaohongshu"` or `"xhscdn"`, or its lowercased name contains one of the
fixed allow-list of platform auth-cookie names; and the returned sequence
consists, in order, of exactly the accepted records (with defaults
applied) — failing records are dropped without an error. -/
theorem C8_validation :
    (∀ c : RawCookie,
        validateCookie c = true ↔
          (c.name.isSome = true ∧ c.value.isSome = true ∧
            (containsSub (c.domain.getD "") "xiaohongshu" = true ∨
             containsSub (c.domain.getD "") "xhscdn" = true ∨
             xiaohongshu_cookie_names.any
               (fun n => containsSub (asciiLower (c.name.getD "")) n)
               = true))) ∧
    (∀ cs : List RawCookie,
        acceptCookies cs
          = (cs.filter validateCookie).map applyCookieDefaults) := by
  constructor
  · intro c
    rcases c with ⟨name, value, domain, path, secure⟩
    cases name with
    | none => simp [validateCookie]
    | some n =>
        cases value with
        | none => simp [validateCookie]
        | some v =>
            simp only [validateCookie, Option.isNone_some, Bool.false_eq_true,
              if_false, Option.isSome_some, Option.getD_some, true_and]
            by_cases hx : containsSub ((Option.getD domain "")) "xiaohongshu" = true
            · simp [hx]
            · by_cases hc : containsSub ((Option.getD domain "")) "xhscdn" = true
              · simp [hx, hc]
              · simp [hx, hc]
  · intro cs
    induction cs with
    | nil => rfl
    | cons c cs ih =>
        by_cases hv : validateCookie c
        · simp [acceptCookies, List.filter, hv] at *
          exact ih
        · simp [acceptCookies, List.filter, hv] at *
          exact ih

/-- Witness for C8: a cookie with no domain but an allow-listed name is
accepted. -/
theorem C8_validation_witness :
    validateCookie { name := some "web_session", value := some "v",
                     domain := none, path := none, secure := none } = true :=
  (C8_validation.1 _).mpr ⟨rfl, rfl, Or.inr (Or.inr (by decide))⟩

/-- One unfolding step of the tab split. -/
theorem splitSep_cons (sep c : Char) (rest : List Char) :
    splitSep sep (c :: rest) =
      (match splitSep sep rest with
       | [] => [[c]]
       | cur :: rs => if c = sep then [] :: cur :: rs else (c :: cur) :: rs) := rfl

/-- The number of split fields is the separator count plus one. -/
theorem splitSep_length (sep : Char) (l : List Char) :
    (splitSep sep l).length = l.count sep + 1 := by
  induction l with
  | nil => rfl
  | cons c rest ih =>
      rw [splitSep_cons]
      cases h : splitSep sep rest with
      | nil => rw [h] at ih; simp at ih
      | cons cur rs =>
          rw [h] at ih
          by_cases hc : c = sep
          · simp only [hc, if_pos rfl, List.length_cons, List.count_cons]
            simp at ih ⊢
            omega
          · simp only [if_neg hc, List.length_cons, List.count_cons]
            simp [hc] at ih ⊢
            omega

/-- Dropping a prefix cannot increase a character count. -/
theorem count_dropWhile_le (p : Char → Bool) (sep : Char) (l : List Char) :
    (l.dropWhile p).count sep ≤ l.count sep := by
  induction l with
  | nil => simp
  | cons a t ih =>
      by_cases hp : p a
      · rw [List.dropWhile_cons_of_pos hp]
        calc (t.dropWhile p).count sep ≤ t.count sep := ih
          _ ≤ (a :: t).count sep := by
              rw [List.count_cons]
              split <;> omega
      · rw [List.dropWhile_cons_of_neg hp]

/-- Stripping surrounding whitespace cannot increase a character count. -/
theorem count_pyStrip_le (sep : Char) (l : List Char) :
    (pyStripList l).count sep ≤ l.count sep := by
  unfold pyStripList
  rw [List.count_reverse]
  calc ((l.dropWhile Char.isWhitespace).reverse.dropWhile
          Char.isWhitespace).count sep
      ≤ (l.dropWhile Char.isWhitespace).reverse.count sep :=
        count_dropWhile_le _ _ _
    _ = (l.dropWhile Char.isWhitespace).count sep := List.count_reverse _ _
    _ ≤ l.count sep := count_dropWhile_le _ _ _

/-- C10: Netscape line handling.  (i) A non-blank line not starting with
`#` that has fewer than 7 tab-separated fields yields no cookie record —
it is silently skipped.  (ii) A line with more than 7 tab-separated fields
yields the record built from exactly the first 7 fields: in particular its
`value` is exactly the seventh field; the surplus fields are ignored. -/
theorem C10_netscape_fields :
    (∀ line : List Char,
        line ≠ [] → line.headD ' ' ≠ '#' →
        (splitSep '\t' line).length < 7 →
        parseNetscapeLine line = .ok none) ∧
    (∀ (line : List Char) (e : Option Int),
        pyStripList line ≠ [] →
        (pyStripList line).headD ' ' ≠ '#' →
        7 < (splitSep '\t' (pyStripList line)).length →
        expiresOf ((splitSep '\t' (pyStripList line)).getD 4 []) = .ok e →
        parseNetscapeLine line = .ok (some
          { domain := String.mk ((splitSep '\t' (pyStripList line)).getD 0 [])
            httpOnly := asciiLower (String.mk
              ((splitSep '\t' (pyStripList line)).getD 1 [])) = "true"
            path := String.mk ((splitSep '\t' (pyStripList line)).getD 2 [])
            secure := asciiLower (String.mk
              ((splitSep '\t' (pyStripList line)).getD 3 [])) = "true"
            expires := e
            name := String.mk ((splitSep '\t' (pyStripList line)).getD 5 [])
            value := String.mk
              ((splitSep '\t' (pyStripList line)).getD 6 []) })) := by
  constructor
  · intro line _ _ hfields
    unfold parseNetscapeLine
    by_cases he : (pyStripList line).isEmpty
    · rw [if_pos he]
    · rw [if_neg he]
      by_cases hh : (pyStripList line).headD ' ' = '#'
      · rw [if_pos hh]
      · rw [if_neg hh]
        have hlt : (splitSep '\t' (pyStripList line)).length < 7 := by
          rw [splitSep_length] at hfields ⊢
          have := count_pyStrip_le '\t' line
          omega
        rw [if_neg (Nat.not_le.mpr hlt)]
  · intro line e h1 h2 h3 h4
    unfold parseNetscapeLine
    have hne : (pyStripList line).isEmpty = false := by
      simpa [List.isEmpty_iff] using h1
    have hle : 7 ≤ (splitSep '\t' (pyStripList line)).length := by omega
    simp only [hne, Bool.false_eq_true, if_false, h2, hle, if_true, h4]

/-- Witness for C10: a 3-field line is skipped, an 8-field line keeps
exactly the first 7 fields with the seventh as the value. -/
theorem C10_netscape_fields_witness :
    parseNetscapeLine ("a\tb".toList) = .ok none ∧
    parseNetscapeLine
        (".xiaohongshu.com\tTRUE\t/\tTRUE\t0\tweb_session\tval7\tsurplus".toList)
      = .ok (some { domain := ".xiaohongshu.com", httpOnly := true,
                    path := "/", secure := true, expires := none,
                    name := "web_session", value := "val7" }) := by
  constructor
  · exact C10_netscape_fields.1 _ (by decide) (by decide) (by decide)
  · exact (C10_netscape_fields.2
      (".xiaohongshu.com\tTRUE\t/\tTRUE\t0\tweb_session\tval7\tsurplus".toList)
      none (by decide) (by decide) (by decide) rfl).trans rfl

end XhsAutoPost
